import Mathlib

/-
Verification of the MUSE_Carla scene-capture and annotation pipeline.

The development embeds, over exact rational arithmetic and explicit lists,
the algorithmic core of the repository:

* `bounding_box_export.py` — Liang–Barsky segment clipping, the pinhole
  projection `get_image_point`, and the per-actor export pipeline of
  `export_3d_bboxes`;
* `multi_sensor_collection.py` / `simulation_logic.py` — the per-tick
  sensor rendezvous of `run_simulation`, the sensor callback's queue
  protocol, the scene retry loop of `main`, and the dataset-consistency
  pass `clean_scene_data`;
* `sensor_processing.py` — the later revision of `clean_scene_data`,
  which additionally preserves `_3dbbox.json` side-files.

Python floats are modelled as exact rationals; file systems as
association lists from folder name to the list of file names it holds.
-/

namespace MuseCarla

/-! ### Geometry: Liang–Barsky clipping (`liang_barsky_clip`) -/

/-- One boundary check of the Liang–Barsky loop body: given `(p, q)` and the
current `(t0, t1)` window, either reject the segment (`none`) or tighten the
window, exactly as the `for p, q in checks` body of `liang_barsky_clip`. -/
def lbCheck (p q : ℚ) (t : ℚ × ℚ) : Option (ℚ × ℚ) :=
  if p = 0 then
    if q < 0 then none else some t
  else
    let r := q / p
    if p < 0 then
      if r > t.2 then none
      else if r > t.1 then some (r, t.2) else some t
    else
      if r < t.1 then none
      else if r < t.2 then some (t.1, r) else some t

/-- `liang_barsky_clip` from `bounding_box_export.py`: clips the segment
`(x1,y1)–(x2,y2)` against the axis-aligned rectangle
`[x_min,x_max] × [y_min,y_max]`.  The four `(p, q)` checks are processed in
source order; afterwards the clipped endpoints are computed at `t0`/`t1`,
and a result whose endpoints coincide within `1e-6` on both axes is
discarded as degenerate. -/
def liang_barsky_clip (x1 y1 x2 y2 x_min y_min x_max y_max : ℚ) :
    Option ((ℚ × ℚ) × (ℚ × ℚ)) :=
  let dx := x2 - x1
  let dy := y2 - y1
  match (lbCheck (-dx) (x1 - x_min) (0, 1)).bind (fun t =>
        (lbCheck dx (x_max - x1) t).bind (fun t =>
        (lbCheck (-dy) (y1 - y_min) t).bind (fun t =>
         lbCheck dy (y_max - y1) t))) with
  | none => none
  | some t =>
    let cx1 := x1 + t.1 * dx
    let cy1 := y1 + t.1 * dy
    let cx2 := x1 + t.2 * dx
    let cy2 := y1 + t.2 * dy
    if |cx1 - cx2| < 1 / 1000000 ∧ |cy1 - cy2| < 1 / 1000000 then none
    else some ((cx1, cy1), (cx2, cy2))

/-! ### Geometry: projection (`build_projection_matrix`, `get_image_point`) -/

/-- A 3-component column vector over ℚ. -/
structure Vec3 where
  a0 : ℚ
  a1 : ℚ
  a2 : ℚ
deriving DecidableEq

/-- A 4-component column vector over ℚ. -/
structure Vec4 where
  a0 : ℚ
  a1 : ℚ
  a2 : ℚ
  a3 : ℚ
deriving DecidableEq

/-- A 3×3 matrix over ℚ, stored by rows. -/
structure Mat3 where
  r0 : Vec3
  r1 : Vec3
  r2 : Vec3
deriving DecidableEq

/-- A 4×4 matrix over ℚ, stored by rows (only the first three rows of the
world-to-camera matrix are consumed by `get_image_point`). -/
structure Mat4 where
  r0 : Vec4
  r1 : Vec4
  r2 : Vec4
  r3 : Vec4
deriving DecidableEq

/-- Row–vector dot product, 3 components. -/
def dot3 (r v : Vec3) : ℚ := r.a0 * v.a0 + r.a1 * v.a1 + r.a2 * v.a2

/-- Row–vector dot product, 4 components. -/
def dot4 (r v : Vec4) : ℚ := r.a0 * v.a0 + r.a1 * v.a1 + r.a2 * v.a2 + r.a3 * v.a3

/-- A world-space location (`carla.Location`-shaped value). -/
structure Loc where
  x : ℚ
  y : ℚ
  z : ℚ
deriving DecidableEq

/-- `build_projection_matrix` from `bounding_box_export.py`.  The source
computes `focal = w / (2 * tan(fov * pi / 360))`, a transcendental value;
the focal length is therefore taken here as an input, and the theorems about
the projector hold for every focal length.  The shape of K — `focal` on the
diagonal, the image centre in the last column, and last row `(0, 0, 1)` —
is what the source fixes. -/
def build_projection_matrix (w h focal : ℚ) : Mat3 :=
  { r0 := ⟨focal, 0, w / 2⟩
    r1 := ⟨0, focal, h / 2⟩
    r2 := ⟨0, 0, 1⟩ }

/-- `get_image_point` from `bounding_box_export.py`: projects world point
`loc` through the world-to-camera matrix `w2c` and intrinsics `K`.  The
first camera-space component is the depth; depths `≤ 1e-4` are flagged
`is_behind` and clamped to `1e-3` before the perspective divide.  The
remaining sentinel branch returns a far-off-screen point when the
homogeneous coordinate produced by `K` is itself below `1e-4` in
magnitude. -/
def get_image_point (loc : Loc) (K : Mat3) (w2c : Mat4) : (ℚ × ℚ) × Bool :=
  let point : Vec4 := ⟨loc.x, loc.y, loc.z, 1⟩
  let pch0 := dot4 w2c.r0 point
  let pch1 := dot4 w2c.r1 point
  let pch2 := dot4 w2c.r2 point
  let is_behind : Bool := pch0 ≤ 1 / 10000
  let pch0c := if is_behind then 1 / 1000 else pch0
  let point_camera : Vec3 := ⟨pch1, -pch2, pch0c⟩
  let img0 := dot3 K.r0 point_camera
  let img1 := dot3 K.r1 point_camera
  let img2 := dot3 K.r2 point_camera
  if |img2| < 1 / 10000 then ((-1000000, -1000000), true)
  else ((img0 / img2, img1 / img2), is_behind)

/-! ### The bounding-box exporter (`export_3d_bboxes`) -/

/-- `EDGES_INDICES` from `bounding_box_export.py`: the 12 edges of a cuboid
over its 8 vertices. -/
def EDGES_INDICES : List (Fin 8 × Fin 8) :=
  [(0, 1), (1, 3), (3, 2), (2, 0), (4, 5), (5, 7), (7, 6), (6, 4),
   (0, 4), (1, 5), (2, 6), (3, 7)]

/-- The data `export_3d_bboxes` reads off one dynamic actor returned by
`world.get_actors().filter('*vehicle*')`: its id, its location, whether it
exposes a `bounding_box` attribute (the `AttributeError` path), and the 8
world-space vertices `bb.get_world_vertices(actor_transform)` of its
oriented bounding box. -/
structure ActorData where
  id : ℕ
  loc : Loc
  has_bounding_box : Bool
  verts : Fin 8 → Loc

/-- One per-frame annotation record as serialized by `export_3d_bboxes`. -/
structure ActorAnnotation where
  actor_id : ℕ
  clipped_segments : List ((ℚ × ℚ) × (ℚ × ℚ))
  bbox_from_clipped : Option (ℚ × ℚ × ℚ × ℚ)
deriving DecidableEq

/-- Squared Euclidean distance between two locations.  The source compares
`actor_loc.distance(ego_location) > 50` with `distance` the Euclidean norm;
over ℚ the equivalent square form `distSq > 2500` is used (both sides are
non-negative, so the comparisons agree). -/
def distSq (a b : Loc) : ℚ :=
  (a.x - b.x) ^ 2 + (a.y - b.y) ^ 2 + (a.z - b.z) ^ 2

/-- `forward.dot(ray)` for locations used as vectors. -/
def dotLoc (a b : Loc) : ℚ := a.x * b.x + a.y * b.y + a.z * b.z

/-- Difference of locations (`actor_loc - sensor_loc`). -/
def subLoc (a b : Loc) : Loc := ⟨a.x - b.x, a.y - b.y, a.z - b.z⟩

/-- One step of the edge-clipping loop of `export_3d_bboxes`: skip the edge
when both projected endpoints are behind the camera, otherwise clip it
against the viewport; a kept segment is appended to
`clipped_segments_for_actor` (first component) and both its endpoints to
`all_projected_points_for_bbox` (second component). -/
def clipStep (pv : Fin 8 → (ℚ × ℚ) × Bool) (image_w image_h : ℚ)
    (acc : List ((ℚ × ℚ) × (ℚ × ℚ)) × List (ℚ × ℚ)) (e : Fin 8 × Fin 8) :
    List ((ℚ × ℚ) × (ℚ × ℚ)) × List (ℚ × ℚ) :=
  if (pv e.1).2 && (pv e.2).2 then acc
  else
    match liang_barsky_clip (pv e.1).1.1 (pv e.1).1.2 (pv e.2).1.1 (pv e.2).1.2
        0 0 image_w image_h with
    | none => acc
    | some s => (acc.1 ++ [s], acc.2 ++ [s.1, s.2])

/-- The edge-clipping fold of `export_3d_bboxes` over the 12 cuboid
edges. -/
def clipEdges (pv : Fin 8 → (ℚ × ℚ) × Bool) (image_w image_h : ℚ) :
    List ((ℚ × ℚ) × (ℚ × ℚ)) × List (ℚ × ℚ) :=
  EDGES_INDICES.foldl (clipStep pv image_w image_h) ([], [])

/-- `min(xs)` over the projected points `p :: rest`. -/
def bboxXlo (p : ℚ × ℚ) (rest : List (ℚ × ℚ)) : ℚ :=
  rest.foldl (fun m q => min m q.1) p.1

/-- `max(xs)` over the projected points `p :: rest`. -/
def bboxXhi (p : ℚ × ℚ) (rest : List (ℚ × ℚ)) : ℚ :=
  rest.foldl (fun m q => max m q.1) p.1

/-- `min(ys)` over the projected points `p :: rest`. -/
def bboxYlo (p : ℚ × ℚ) (rest : List (ℚ × ℚ)) : ℚ :=
  rest.foldl (fun m q => min m q.2) p.2

/-- `max(ys)` over the projected points `p :: rest`. -/
def bboxYhi (p : ℚ × ℚ) (rest : List (ℚ × ℚ)) : ℚ :=
  rest.foldl (fun m q => max m q.2) p.2

/-- `w = max(0.0, x_max - x_min)`. -/
def bboxW (p : ℚ × ℚ) (rest : List (ℚ × ℚ)) : ℚ :=
  max 0 (bboxXhi p rest - bboxXlo p rest)

/-- `h = max(0.0, y_max - y_min)`. -/
def bboxH (p : ℚ × ℚ) (rest : List (ℚ × ℚ)) : ℚ :=
  max 0 (bboxYhi p rest - bboxYlo p rest)

/-- The tail of the per-actor loop body of `export_3d_bboxes`, after edge
clipping: skip the actor when no edge produced a clipped segment; derive
the axis-aligned rectangle from the collected endpoints when there are any;
skip the actor when that rectangle is tinier than 3 pixels in either
dimension; otherwise emit the annotation. -/
def mkAnnotation (actor_id : ℕ) (segs : List ((ℚ × ℚ) × (ℚ × ℚ)))
    (pts : List (ℚ × ℚ)) : Option ActorAnnotation :=
  if segs = [] then none
  else
    match pts with
    | [] => some ⟨actor_id, segs, none⟩
    | p :: rest =>
      if bboxW p rest < 3 ∨ bboxH p rest < 3 then none
      else some ⟨actor_id, segs,
        some (bboxXlo p rest, bboxYlo p rest, bboxW p rest, bboxH p rest)⟩

/-- `[get_image_point(v, K, w2c) for v in verts]`. -/
def projVerts (K : Mat3) (w2c : Mat4) (actor : ActorData) :
    Fin 8 → (ℚ × ℚ) × Bool :=
  fun k => get_image_point (actor.verts k) K w2c

/-- The body of the per-actor loop of `export_3d_bboxes`: the ego check,
distance filter, forward-facing filter, the `AttributeError` guard for the
bounding box, vertex projection, edge clipping, and the post-clipping
emission logic.  Returns `none` exactly when the loop `continue`s without
appending to `output_data`. -/
def processActor (K : Mat3) (w2c : Mat4) (forward sensor_loc ego_location : Loc)
    (image_w image_h : ℚ) (ego_id : ℕ) (actor : ActorData) :
    Option ActorAnnotation :=
  if actor.id = ego_id then none
  else if distSq actor.loc ego_location > 2500 then none
  else if dotLoc forward (subLoc actor.loc sensor_loc) < 1 then none
  else if actor.has_bounding_box = false then none
  else
    mkAnnotation actor.id
      (clipEdges (projVerts K w2c actor) image_w image_h).1
      (clipEdges (projVerts K w2c actor) image_w image_h).2

/-- The `output_data` list produced by `export_3d_bboxes` over the dynamic
vehicles of a tick (the JSON serialization of this list is the side
effect). -/
def export_3d_bboxes (K : Mat3) (w2c : Mat4) (forward sensor_loc ego_location : Loc)
    (image_w image_h : ℚ) (ego_id : ℕ) (actors : List ActorData) :
    List ActorAnnotation :=
  actors.filterMap (processActor K w2c forward sensor_loc ego_location image_w image_h ego_id)

/-! ### Sensor rendezvous (`run_simulation`'s per-tick wait loop)

`run_simulation` (identical in `simulation_logic.py` and
`multi_sensor_collection.py`) waits, per tick, for one `(timestamp,
sensor_name)` token per attached sensor: `while len(received_sensors) <
len(sensor_list)` it performs `sensor_queue.get(True, 1.0)`; a `queue.Empty`
timeout is caught and breaks out of the wait, so the tick loop proceeds.
The wait is modelled with the queue as the list of tokens that become
available within the timeout windows: popping from an exhausted queue is the
`Empty` exception, and the `except Empty: break` arm is the branch that
returns with `timedOut = true`. -/

/-- Python-dict insertion into `received_sensors`: an existing key is
updated in place, a new key is appended. -/
def upsert (m : List (String × ℕ)) (k : String) (v : ℕ) : List (String × ℕ) :=
  if m.any (fun p => p.1 == k) then
    m.map (fun p => if p.1 == k then (k, v) else p)
  else m ++ [(k, v)]

/-- Result of one tick's rendezvous wait: the `received_sensors` dict, the
tokens still queued, and whether the wait ended by timeout (`Empty` caught)
rather than by collecting `n` entries. -/
structure TickWait where
  received : List (String × ℕ)
  leftover : List (ℕ × String)
  timedOut : Bool
deriving DecidableEq

/-- The `while len(received_sensors) < len(sensor_list)` wait of
`run_simulation`, for `n = len(sensor_list)` expected sensors. -/
def waitTick (n : ℕ) : List (ℕ × String) → List (String × ℕ) → TickWait
  | queue, received =>
    if received.length < n then
      match queue with
      | [] => ⟨received, [], true⟩
      | (ts, s) :: rest => waitTick n rest (upsert received s ts)
    else ⟨received, queue, false⟩

/-- The tick loop of `run_simulation`: one rendezvous wait per tick, with
tokens left over from a previous tick still sitting in the shared queue.
Returns, per tick, the received dict and the timeout flag. -/
def runTicks (n : ℕ) : List (List (ℕ × String)) → List (ℕ × String) →
    List (List (String × ℕ) × Bool)
  | [], _ => []
  | arrivals :: rest, carry =>
    let r := waitTick n (carry ++ arrivals) []
    (r.received, r.timedOut) :: runTicks n rest r.leftover

/-! ### The sensor callback (`sensor_callback`) -/

/-- The payload variants `sensor_callback` dispatches on (the final
catch-all corresponds to a payload matching none of the `isinstance`
branches, which is saved nowhere but still acknowledged). -/
inductive SensorPayload
  | imu
  | gnss
  | image
  | semanticLidar
  | lidar
  | radar
  | other
deriving DecidableEq

/-- A sensor sample: its payload variant and the simulator timestamp in
seconds. -/
structure SensorData where
  payload : SensorPayload
  timestamp : ℚ
deriving DecidableEq

/-- Python `int()` applied to a rational: truncation toward zero. -/
def intTrunc (q : ℚ) : ℤ := q.num / (q.den : ℤ)

/-- The files the `isinstance` dispatch of `sensor_callback` writes into the
sensor's folder for a given payload, named by the millisecond timestamp. -/
def payloadWrites (ts : ℤ) : SensorPayload → List String
  | .imu => [s!"{ts}.json"]
  | .gnss => [s!"{ts}.json"]
  | .image => [s!"{ts}.png"]
  | .semanticLidar => [s!"{ts}.ply", s!"{ts}.npy"]
  | .lidar => [s!"{ts}.npy"]
  | .radar => [s!"{ts}.npy"]
  | .other => []

/-- `sensor_callback` from `multi_sensor_collection.py`: the whole body is
wrapped in `try`/`except Exception`.  On the success path the processed
files are written and `(timestamp, sensor_name)` is queued; if processing or
saving raises (`ioFails`, abstracting every exception the body can raise),
the `except` arm queues the dummy token `(0, sensor_name)` instead.
Returns (files written, tokens pushed onto the rendezvous queue). -/
def sensor_callback (data : SensorData) (ioFails : Bool) (sensor_name : String) :
    List String × List (ℤ × String) :=
  if ioFails then ([], [(0, sensor_name)])
  else
    let ts := intTrunc (data.timestamp * 1000)
    (payloadWrites ts data.payload, [(ts, sensor_name)])

/-! ### The scene capture loop (`main`'s retry loop and `run_simulation`'s
exception structure) -/

/-- Outcome of one call to `run_simulation`: whether an exception
propagates to the caller, and whether the `finally` teardown (destroying
the scene attempt's sensors and the ego vehicle) ran. -/
structure SimOutcome where
  exceptionPropagates : Bool
  teardownRan : Bool
deriving DecidableEq

/-- The exception structure of `run_simulation`: the tick loop body runs
under `try`; `except Exception` catches and logs any exception raised
there; the `finally` arm destroys every sensor and the vehicle.  Whatever
the tick loop does (`tickLoopRaises`), nothing propagates and teardown
runs. -/
def run_simulation_model (tickLoopRaises : Bool) : SimOutcome :=
  match tickLoopRaises with
  | true => { exceptionPropagates := false, teardownRan := true }
  | false => { exceptionPropagates := false, teardownRan := true }

/-- What one scene attempt does in `main`'s retry loop: whether the setup
section (folder creation, ego spawn re-raise, sensor spawn/attach) raises
before `run_simulation` is reached, and whether the tick loop inside
`run_simulation` raises. -/
structure AttemptBehavior where
  setupRaises : Bool
  tickLoopRaises : Bool
deriving DecidableEq

/-- Result of `main`'s per-scene retry loop: `scene_completed`, the number
of attempts actually started, the number of times the per-attempt
`finally` cleanup ran, and the number of times `run_simulation`'s own
teardown ran. -/
structure SceneResult where
  completed : Bool
  attempts : ℕ
  cleanups : ℕ
  simTeardowns : ℕ
deriving DecidableEq

/-- The `for scene_retry in range(max_scene_retries)` loop of `main`,
instantiated with the behaviors of the successive attempts (a list of
length 3 models `max_scene_retries = 3`).  A setup exception is caught by
the `except` arm and the loop retries (or falls through on the last
attempt); otherwise `run_simulation` is called — which never raises — and
the scene is recorded as completed.  The `finally` cleanup runs on every
attempt. -/
def sceneLoop : List AttemptBehavior → SceneResult
  | [] => ⟨false, 0, 0, 0⟩
  | b :: rest =>
    if b.setupRaises then
      let r := sceneLoop rest
      ⟨r.completed, r.attempts + 1, r.cleanups + 1, r.simTeardowns⟩
    else
      let sim := run_simulation_model b.tickLoopRaises
      ⟨true, 1, 1, if sim.teardownRan then 1 else 0⟩

/-! ### String helpers for the consistency filter

`clean_scene_data` manipulates file names with `os.path.splitext`,
`str.endswith`, Python's substring test `in`, and `str.split`.  These are
embedded over the character lists of Lean strings. -/

/-- `leadMatch pat s`: `pat` matches at the start of `s`. -/
def leadMatch : List Char → List Char → Bool
  | [], _ => true
  | _ :: _, [] => false
  | p :: ps, c :: cs => p == c && leadMatch ps cs

/-- Python's substring test `pat in s`. -/
def hasSub (pat : List Char) : List Char → Bool
  | [] => leadMatch pat []
  | c :: cs => leadMatch pat (c :: cs) || hasSub pat cs

/-- The part of `s` before the first occurrence of `pat`
(`s.split(pat)[0]`); the whole of `s` when `pat` does not occur. -/
def takeBefore (pat : List Char) : List Char → List Char
  | [] => []
  | c :: cs => if leadMatch pat (c :: cs) then [] else c :: takeBefore pat cs

/-- String wrapper for `hasSub`. -/
def strHasSub (pat s : String) : Bool := hasSub pat.data s.data

/-- String wrapper for `takeBefore`: `s.split(pat)[0]`. -/
def strTakeBefore (pat s : String) : String := ⟨takeBefore pat.data s.data⟩

/-- `str.endswith pat`. -/
def strEndsWith (pat s : String) : Bool :=
  leadMatch pat.data.reverse s.data.reverse

/-- The base returned by the last-dot split on the non-leading-dot part of a
name: `none` when no splitting dot exists, otherwise the characters before
the last dot. -/
def lastDotSplit : List Char → Option (List Char)
  | [] => none
  | c :: cs =>
    match lastDotSplit cs with
    | some b => some (c :: b)
    | none => if c = '.' then some [] else none

/-- `os.path.splitext(f)[0]`: strips the extension starting at the last
dot, except that leading dots of the name never start an extension. -/
def pySplitextBase (f : String) : String :=
  let lead := f.data.takeWhile (fun c => c = '.')
  let core := f.data.dropWhile (fun c => c = '.')
  match lastDotSplit core with
  | some b => ⟨lead ++ b⟩
  | none => f

/-- `f[:-4] + '.npy'`: the `.npy` sibling checked for a `.ply` file. -/
def plySibling (f : String) : String :=
  ⟨(f.data.reverse.drop 4).reverse ++ ".npy".data⟩

/-- `os.path.join(scene_path, sensor)`. -/
def joinPath (scene_path sensor : String) : String :=
  scene_path ++ "/" ++ sensor

/-! ### The dataset-consistency filter (`clean_scene_data`)

A scene directory is an association list from folder name to the list of
file names the folder holds (`os.listdir`).  Two revisions of
`clean_scene_data` exist in the repository: the one in
`multi_sensor_collection.py` (namespace `MSC`) and the later one in
`sensor_processing.py` (namespace `SP`), which additionally skips
`_3dbbox.json` files when collecting timestamps and preserves them during
deletion when their base timestamp is in the common set. -/

/-- A scene directory: folder name ↦ directory listing. -/
abbrev SceneDir := List (String × List String)

/-- `os.path.isdir`/`os.listdir` on the modelled scene: the listing of the
(first) folder with the given name, if present. -/
def findFolder : SceneDir → String → Option (List String)
  | [], _ => none
  | (n, fs) :: rest, s => if n = s then some fs else findFolder rest s

/-- The supported raw-data extensions accepted by `clean_scene_data`. -/
def supportedExt (f : String) : Bool :=
  strEndsWith ".png" f || strEndsWith ".npy" f ||
  strEndsWith ".json" f || strEndsWith ".ply" f

/-- The deletion sweep shared by both revisions of `clean_scene_data`: in
every folder that is one of the listed sensor folders, exactly the files
satisfying `keep` survive; folders not listed are untouched
(`os.remove` on everything else). -/
def cleanWith (names : List String) (keep : String → Bool) : SceneDir → SceneDir
  | [] => []
  | (n, fs) :: rest =>
    (n, if names.contains n then fs.filter keep else fs) :: cleanWith names keep rest

namespace MSC

/-- The per-folder `files` list of `clean_scene_data`
(`multi_sensor_collection.py` lines 178–192): every file is skipped when
the folder path contains `"instance"`; otherwise a file is kept when it has
a supported extension and, for `.ply` files, when the `.npy` sibling exists
in the same listing. -/
def validFiles (scene_path sensor : String) (listing : List String) : List String :=
  if strHasSub "instance" (joinPath scene_path sensor) then []
  else
    listing.filter (fun f =>
      supportedExt f &&
      (!strEndsWith ".ply" f || listing.contains (plySibling f)))

/-- The base-timestamp list of one folder (`ts_set`), as the multiset of
bases of its valid files (only membership and emptiness are consumed). -/
def tsOf (scene_path sensor : String) (listing : List String) : List String :=
  (validFiles scene_path sensor listing).map pySplitextBase

/-- `ts_dict`: one entry per listed sensor whose folder exists and yields a
non-empty base set. -/
def tsDict (scene_path : String) (scene : SceneDir) : List String → List (String × List String)
  | [] => []
  | s :: rest =>
    match findFolder scene s with
    | none => tsDict scene_path scene rest
    | some listing =>
      let ts := tsOf scene_path s listing
      if ts = [] then tsDict scene_path scene rest
      else (s, ts) :: tsDict scene_path scene rest

/-- `common_ts = set.intersection(*ts_dict.values())`; the empty list both
when `ts_dict` is empty (the code returns before intersecting) and when the
intersection is empty. -/
def commonTs (scene_path : String) (scene : SceneDir) (sensor_names : List String) :
    List String :=
  match tsDict scene_path scene sensor_names with
  | [] => []
  | (_, ts) :: rest => rest.foldl (fun acc p => acc.filter (fun b => p.2.contains b)) ts

/-- The deletion sweep: in every listed sensor folder, a file survives iff
its base name is in the common set. -/
def cleanFolders (sensor_names : List String) (common : List String)
    (scene : SceneDir) : SceneDir :=
  cleanWith sensor_names (fun f => common.contains (pySplitextBase f)) scene

/-- `clean_scene_data` from `multi_sensor_collection.py`: the resulting
scene directory.  When no folder yields valid files, or no timestamp is
common to all contributing folders, the pass returns with a warning and
deletes nothing. -/
def clean_scene_data (scene_path : String) (scene : SceneDir)
    (sensor_names : List String) : SceneDir :=
  if tsDict scene_path scene sensor_names = [] then scene
  else if commonTs scene_path scene sensor_names = [] then scene
  else cleanFolders sensor_names (commonTs scene_path scene sensor_names) scene

/-- The warning/deletion status of the pass, paired with
`clean_scene_data` by definition. -/
inductive CleanStatus
  | noValidFiles
  | noCommon
  | cleaned
deriving DecidableEq

/-- Which exit `clean_scene_data` takes. -/
def cleanStatus (scene_path : String) (scene : SceneDir)
    (sensor_names : List String) : CleanStatus :=
  if tsDict scene_path scene sensor_names = [] then .noValidFiles
  else if commonTs scene_path scene sensor_names = [] then .noCommon
  else .cleaned

/-- The set (as a multiset of occurrences) of base timestamps a sensor
folder retains after the pass. -/
def basesAfter (scene_path : String) (scene : SceneDir) (sensor_names : List String)
    (s : String) : List String :=
  ((findFolder (clean_scene_data scene_path scene sensor_names) s).getD []).map
    pySplitextBase

end MSC

namespace SP

/-- The per-folder `files` list of the `sensor_processing.py` revision:
as in `MSC.validFiles`, but files containing `_3dbbox.json` are also
skipped when collecting timestamps. -/
def validFiles (scene_path sensor : String) (listing : List String) : List String :=
  if strHasSub "instance" (joinPath scene_path sensor) then []
  else
    listing.filter (fun f =>
      supportedExt f &&
      !strHasSub "_3dbbox.json" f &&
      (!strEndsWith ".ply" f || listing.contains (plySibling f)))

/-- Base-timestamp list of one folder in the `SP` revision. -/
def tsOf (scene_path sensor : String) (listing : List String) : List String :=
  (validFiles scene_path sensor listing).map pySplitextBase

/-- `ts_dict` of the `SP` revision. -/
def tsDict (scene_path : String) (scene : SceneDir) : List String → List (String × List String)
  | [] => []
  | s :: rest =>
    match findFolder scene s with
    | none => tsDict scene_path scene rest
    | some listing =>
      let ts := tsOf scene_path s listing
      if ts = [] then tsDict scene_path scene rest
      else (s, ts) :: tsDict scene_path scene rest

/-- `common_ts` of the `SP` revision. -/
def commonTs (scene_path : String) (scene : SceneDir) (sensor_names : List String) :
    List String :=
  match tsDict scene_path scene sensor_names with
  | [] => []
  | (_, ts) :: rest => rest.foldl (fun acc p => acc.filter (fun b => p.2.contains b)) ts

/-- Whether the deletion sweep of the `SP` revision keeps a file: a
`_3dbbox.json` side-file is preserved whenever the part of its name before
`_3dbbox.json` is a common timestamp; any other file (and a `_3dbbox.json`
file with a stale timestamp) survives iff its base name is common. -/
def keepFile (common : List String) (f : String) : Bool :=
  if strHasSub "_3dbbox.json" f && common.contains (strTakeBefore "_3dbbox.json" f) then
    true
  else common.contains (pySplitextBase f)

/-- The deletion sweep of the `SP` revision. -/
def cleanFolders (sensor_names : List String) (common : List String)
    (scene : SceneDir) : SceneDir :=
  cleanWith sensor_names (keepFile common) scene

/-- `clean_scene_data` from `sensor_processing.py`. -/
def clean_scene_data (scene_path : String) (scene : SceneDir)
    (sensor_names : List String) : SceneDir :=
  if tsDict scene_path scene sensor_names = [] then scene
  else if commonTs scene_path scene sensor_names = [] then scene
  else cleanFolders sensor_names (commonTs scene_path scene sensor_names) scene

end SP

/-! ## Theorems -/

/-! ### Helper lemmas -/

/-- `List.contains` agrees with membership for strings. -/
theorem contains_iff_mem (l : List String) (b : String) :
    l.contains b = true ↔ b ∈ l := by
  simp [List.contains, List.elem_iff]

/-- A Liang–Barsky boundary check that a point inside the boundary passes
without tightening the initial `(0, 1)` window. -/
theorem lbCheck_keep (p q : ℚ) (hq : 0 ≤ q) (hpq : 0 < p → p ≤ q) :
    lbCheck p q (0, 1) = some (0, 1) := by
  unfold lbCheck
  rcases lt_trichotomy p 0 with hp | hp | hp
  · rw [if_neg hp.ne]
    have hr : q / p ≤ 0 := div_nonpos_of_nonneg_of_nonpos hq hp.le
    rw [if_pos hp, if_neg (by push_neg; linarith : ¬ q / p > (1 : ℚ)),
      if_neg (by push_neg; exact hr : ¬ q / p > (0 : ℚ))]
  · rw [if_pos hp, if_neg (not_lt.mpr hq)]
  · have h1 : (1 : ℚ) ≤ q / p := (one_le_div hp).mpr (hpq hp)
    have h0 : (0 : ℚ) ≤ q / p := by linarith
    rw [if_neg hp.ne', if_neg (not_lt.mpr hp.le),
      if_neg (not_lt.mpr h0), if_neg (not_lt.mpr h1)]

/-! ### C5: the projector never divides by zero at or behind the camera
plane -/

/-- C5.  For every world vertex whose camera-space depth component is at
most the epsilon `1e-4` (depth `0` included), `get_image_point` built on
`build_projection_matrix` flags the vertex as behind the camera, clamps the
depth to the positive value `1e-3`, and performs the perspective divide by
that non-zero clamped depth, producing well-defined (finite) rational pixel
coordinates. -/
theorem get_image_point_behind_camera_safe (loc : Loc) (w2c : Mat4) (w h focal : ℚ)
    (hdepth : dot4 w2c.r0 ⟨loc.x, loc.y, loc.z, 1⟩ ≤ 1 / 10000) :
    ((1 : ℚ) / 1000 ≠ 0) ∧
    get_image_point loc (build_projection_matrix w h focal) w2c =
      ((dot3 (build_projection_matrix w h focal).r0
          ⟨dot4 w2c.r1 ⟨loc.x, loc.y, loc.z, 1⟩,
           -(dot4 w2c.r2 ⟨loc.x, loc.y, loc.z, 1⟩), 1 / 1000⟩ / (1 / 1000),
        dot3 (build_projection_matrix w h focal).r1
          ⟨dot4 w2c.r1 ⟨loc.x, loc.y, loc.z, 1⟩,
           -(dot4 w2c.r2 ⟨loc.x, loc.y, loc.z, 1⟩), 1 / 1000⟩ / (1 / 1000)),
       true) := by
  refine ⟨by norm_num, ?_⟩
  unfold get_image_point
  have hflag : (decide (dot4 w2c.r0 ⟨loc.x, loc.y, loc.z, 1⟩ ≤ 1 / 10000)) = true :=
    decide_eq_true hdepth
  simp only [hflag, if_true, ite_true]
  have himg2 : dot3 (build_projection_matrix w h focal).r2
      ⟨dot4 w2c.r1 ⟨loc.x, loc.y, loc.z, 1⟩,
       -(dot4 w2c.r2 ⟨loc.x, loc.y, loc.z, 1⟩), 1 / 1000⟩ = 1 / 1000 := by
    simp [build_projection_matrix, dot3]
  rw [himg2]
  have habs : ¬ (|(1 : ℚ) / 1000| < 1 / 10000) := by
    rw [abs_of_pos (by norm_num : (0 : ℚ) < 1 / 1000)]
    norm_num
  rw [if_neg habs]

/-- Witness for C5: the world origin seen by an identity world-to-camera
transform has camera-space depth `0 ≤ 1e-4`; the projector returns the
behind flag and finite coordinates. -/
theorem get_image_point_behind_camera_safe_witness :
    ((1 : ℚ) / 1000 ≠ 0) ∧
    get_image_point ⟨0, 5, 7⟩ (build_projection_matrix 800 600 400)
        ⟨⟨1, 0, 0, 0⟩, ⟨0, 1, 0, 0⟩, ⟨0, 0, 1, 0⟩, ⟨0, 0, 0, 1⟩⟩ =
      ((dot3 (build_projection_matrix 800 600 400).r0 ⟨5, -7, 1 / 1000⟩ / (1 / 1000),
        dot3 (build_projection_matrix 800 600 400).r1 ⟨5, -7, 1 / 1000⟩ / (1 / 1000)),
       true) := by
  have h := get_image_point_behind_camera_safe ⟨0, 5, 7⟩
    ⟨⟨1, 0, 0, 0⟩, ⟨0, 1, 0, 0⟩, ⟨0, 0, 1, 0⟩, ⟨0, 0, 0, 1⟩⟩ 800 600 400 (by norm_num [dot4])
  refine ⟨h.1, ?_⟩
  rw [h.2]
  norm_num [dot4]

/-! ### C6: segments fully inside the viewport -/

/-- C6 (amended).  A segment with both endpoints inside the clipping
rectangle and whose endpoints do not coincide within the `1e-6` degeneracy
tolerance on both axes is returned by `liang_barsky_clip` unchanged (the
claim as stated fails for degenerate in-viewport segments, which return
`none`; see the counterexample). -/
theorem liang_barsky_inside_unchanged (x1 y1 x2 y2 x_min y_min x_max y_max : ℚ)
    (hx1 : x_min ≤ x1) (hx1' : x1 ≤ x_max) (hy1 : y_min ≤ y1) (hy1' : y1 ≤ y_max)
    (hx2 : x_min ≤ x2) (hx2' : x2 ≤ x_max) (hy2 : y_min ≤ y2) (hy2' : y2 ≤ y_max)
    (hnd : ¬ (|x1 - x2| < 1 / 1000000 ∧ |y1 - y2| < 1 / 1000000)) :
    liang_barsky_clip x1 y1 x2 y2 x_min y_min x_max y_max =
      some ((x1, y1), (x2, y2)) := by
  unfold liang_barsky_clip
  have c1 : lbCheck (-(x2 - x1)) (x1 - x_min) (0, 1) = some (0, 1) :=
    lbCheck_keep _ _ (by linarith) (fun hp => by linarith)
  have c2 : lbCheck (x2 - x1) (x_max - x1) (0, 1) = some (0, 1) :=
    lbCheck_keep _ _ (by linarith) (fun hp => by linarith)
  have c3 : lbCheck (-(y2 - y1)) (y1 - y_min) (0, 1) = some (0, 1) :=
    lbCheck_keep _ _ (by linarith) (fun hp => by linarith)
  have c4 : lbCheck (y2 - y1) (y_max - y1) (0, 1) = some (0, 1) :=
    lbCheck_keep _ _ (by linarith) (fun hp => by linarith)
  simp only [c1, c2, c3, c4, Option.some_bind]
  have e1 : x1 + 0 * (x2 - x1) = x1 := by ring
  have e2 : y1 + 0 * (y2 - y1) = y1 := by ring
  have e3 : x1 + 1 * (x2 - x1) = x2 := by ring
  have e4 : y1 + 1 * (y2 - y1) = y2 := by ring
  simp only [e1, e2, e3, e4]
  rw [if_neg hnd]

/-- Witness for C6 (amended): the segment `(10,10)–(100,200)` lies inside
the `800 × 600` viewport and is returned unchanged. -/
theorem liang_barsky_inside_unchanged_witness :
    liang_barsky_clip 10 10 100 200 0 0 800 600 = some ((10, 10), (100, 200)) :=
  liang_barsky_inside_unchanged 10 10 100 200 0 0 800 600
    (by norm_num) (by norm_num) (by norm_num) (by norm_num)
    (by norm_num) (by norm_num) (by norm_num) (by norm_num)
    (by norm_num)

/-- Counterexample to C6 as stated: the degenerate segment `(1,1)–(1,1)`
has both endpoints inside the `800 × 600` viewport, yet the clipper returns
`none` rather than the segment itself. -/
theorem liang_barsky_inside_degenerate_none :
    liang_barsky_clip 1 1 1 1 0 0 800 600 = none := by
  norm_num [liang_barsky_clip, lbCheck]

/-! ### C2: a short rendezvous tick never blocks or raises -/

/-- A dict upsert grows the dict by at most one entry. -/
theorem upsert_length_le (m : List (String × ℕ)) (k : String) (v : ℕ) :
    (upsert m k v).length ≤ m.length + 1 := by
  unfold upsert
  split
  · simp
  · simp

/-- When fewer tokens remain available than are still missing, the
rendezvous wait drains the queue and ends in the caught-timeout branch. -/
theorem waitTick_timeout (n : ℕ) (queue : List (ℕ × String)) :
    ∀ received : List (String × ℕ),
      received.length + queue.length < n → (waitTick n queue received).timedOut = true := by
  induction queue with
  | nil =>
    intro received hlen
    unfold waitTick
    rw [if_pos (by simpa using hlen)]
  | cons tok rest ih =>
    intro received hlen
    unfold waitTick
    rw [if_pos (by simp at hlen ⊢; omega)]
    exact ih _ (by
      have := upsert_length_le received tok.2 tok.1
      simp at hlen
      omega)

/-- The tick loop performs one rendezvous wait per tick, whatever the
queues hold: no tick is skipped and none blocks the loop. -/
theorem runTicks_length (n : ℕ) (qs : List (List (ℕ × String))) :
    ∀ carry, (runTicks n qs carry).length = qs.length := by
  induction qs with
  | nil => intro carry; rfl
  | cons q rest ih => intro carry; simp [runTicks, ih]

/-- C2.  A rendezvous expecting `n` sensor tokens of which fewer than `n`
arrive within the timeout windows ends in the caught `Empty`-timeout
branch — control returns to the tick loop with `timedOut` set instead of an
exception propagating — and the tick loop still produces one rendezvous
result for this tick and every later tick. -/
theorem rendezvous_timeout_returns (n : ℕ) (queue : List (ℕ × String))
    (h : queue.length < n) :
    (waitTick n queue []).timedOut = true ∧
    ∀ later : List (List (ℕ × String)),
      (runTicks n (queue :: later) []).length = later.length + 1 := by
  refine ⟨waitTick_timeout n queue [] (by simpa using h), ?_⟩
  intro later
  simp [runTicks, runTicks_length]

/-- Witness for C2: a rendezvous configured for 3 sensors receiving only 2
tokens returns control with the timeout flag, and a 5-tick session still
runs all 5 ticks. -/
theorem rendezvous_timeout_returns_witness :
    (waitTick 3 [(100, "camera_front"), (100, "lidar")] []).timedOut = true ∧
    (runTicks 3 ([(100, "camera_front"), (100, "lidar")] ::
        [[], [], [], []]) []).length = 5 := by
  have h := rendezvous_timeout_returns 3 [(100, "camera_front"), (100, "lidar")]
    (by norm_num)
  exact ⟨h.1, h.2 [[], [], [], []]⟩

/-! ### C8: the 50-unit distance filter -/

/-- C8.  An actor whose squared distance from the ego vehicle exceeds
`50² = 2500` — i.e. an actor farther than 50 length-units — is skipped by
the per-actor export pipeline, whatever the camera intrinsics, pose and
forward direction are: no annotation is emitted for it. -/
theorem exporter_distance_filter (K : Mat3) (w2c : Mat4)
    (forward sensor_loc ego_location : Loc) (image_w image_h : ℚ) (ego_id : ℕ)
    (actor : ActorData) (hfar : distSq actor.loc ego_location > 2500) :
    processActor K w2c forward sensor_loc ego_location image_w image_h ego_id actor =
      none := by
  unfold processActor
  by_cases hid : actor.id = ego_id
  · rw [if_pos hid]
  · rw [if_neg hid, if_pos hfar]

/-- Witness for C8: an actor 60 units ahead of the ego vehicle
(squared distance `3600 > 2500`) produces no annotation, here for an
arbitrary concrete camera. -/
theorem exporter_distance_filter_witness :
    processActor (build_projection_matrix 800 600 400)
      ⟨⟨1, 0, 0, 0⟩, ⟨0, 1, 0, 0⟩, ⟨0, 0, 1, 0⟩, ⟨0, 0, 0, 1⟩⟩
      ⟨1, 0, 0⟩ ⟨0, 0, 0⟩ ⟨0, 0, 0⟩ 800 600 0
      ⟨2, ⟨60, 0, 0⟩, true, fun _ => ⟨60, 0, 0⟩⟩ = none :=
  exporter_distance_filter _ _ _ _ _ _ _ _ _ (by norm_num [distSq])

/-! ### C7: every emitted annotation carries a rectangle of at least 3×3
pixels -/

/-- Every clipping step adds two collected endpoints per collected segment,
so the endpoint list is always exactly twice as long as the segment
list. -/
theorem foldl_clipStep_len (pv : Fin 8 → (ℚ × ℚ) × Bool) (image_w image_h : ℚ)
    (l : List (Fin 8 × Fin 8)) :
    ∀ acc : List ((ℚ × ℚ) × (ℚ × ℚ)) × List (ℚ × ℚ),
      acc.2.length = 2 * acc.1.length →
      (l.foldl (clipStep pv image_w image_h) acc).2.length =
        2 * (l.foldl (clipStep pv image_w image_h) acc).1.length := by
  induction l with
  | nil => intro acc h; exact h
  | cons e rest ih =>
    intro acc h
    rw [List.foldl_cons]
    apply ih
    unfold clipStep
    split
    · exact h
    · split
      · exact h
      · simp only [List.length_append, List.length_cons, List.length_nil, h]
        omega

/-- The endpoint list collected by `clipEdges` is twice the segment list. -/
theorem clipEdges_points_len (pv : Fin 8 → (ℚ × ℚ) × Bool) (image_w image_h : ℚ) :
    (clipEdges pv image_w image_h).2.length =
      2 * (clipEdges pv image_w image_h).1.length :=
  foldl_clipStep_len pv image_w image_h EDGES_INDICES ([], []) rfl

/-- An annotation actually emitted by the post-clipping logic always
carries a rectangle, and that rectangle passed the 3-pixel filter. -/
theorem mkAnnotation_bbox (actor_id : ℕ) (segs : List ((ℚ × ℚ) × (ℚ × ℚ)))
    (pts : List (ℚ × ℚ)) (hlen : pts.length = 2 * segs.length)
    (ann : ActorAnnotation) (h : mkAnnotation actor_id segs pts = some ann) :
    ∃ x y w hh, ann.bbox_from_clipped = some (x, y, w, hh) ∧ 3 ≤ w ∧ 3 ≤ hh := by
  unfold mkAnnotation at h
  by_cases hsegs : segs = []
  · rw [if_pos hsegs] at h
    exact absurd h (by simp)
  rw [if_neg hsegs] at h
  match hpts : pts with
  | [] =>
    simp only [List.length_nil] at hlen
    exact absurd (List.length_eq_zero.mp (by omega)) hsegs
  | p :: rest =>
    dsimp only at h
    by_cases htiny : bboxW p rest < 3 ∨ bboxH p rest < 3
    · rw [if_pos htiny] at h
      exact absurd h (by simp)
    · rw [if_neg htiny] at h
      push_neg at htiny
      injection h with h
      refine ⟨bboxXlo p rest, bboxYlo p rest, bboxW p rest, bboxH p rest, ?_, htiny.1, htiny.2⟩
      rw [← h]

/-- C7.  Every annotation in the list emitted by `export_3d_bboxes`
carries a non-null derived rectangle whose width and height are both at
least the 3-pixel minimum: a non-empty clipped-segment list forces the
endpoint list to be non-empty, so the rectangle is always computed, and
the tiny-box filter discards anything below the threshold. -/
theorem exporter_bbox_min (K : Mat3) (w2c : Mat4)
    (forward sensor_loc ego_location : Loc) (image_w image_h : ℚ) (ego_id : ℕ)
    (actors : List ActorData) (ann : ActorAnnotation)
    (h : ann ∈ export_3d_bboxes K w2c forward sensor_loc ego_location
        image_w image_h ego_id actors) :
    ∃ x y w hh, ann.bbox_from_clipped = some (x, y, w, hh) ∧ 3 ≤ w ∧ 3 ≤ hh := by
  rcases List.mem_filterMap.mp h with ⟨a, -, hp⟩
  unfold processActor at hp
  by_cases h1 : a.id = ego_id
  · rw [if_pos h1] at hp; exact absurd hp (by simp)
  rw [if_neg h1] at hp
  by_cases h2 : distSq a.loc ego_location > 2500
  · rw [if_pos h2] at hp; exact absurd hp (by simp)
  rw [if_neg h2] at hp
  by_cases h3 : dotLoc forward (subLoc a.loc sensor_loc) < 1
  · rw [if_pos h3] at hp; exact absurd hp (by simp)
  rw [if_neg h3] at hp
  by_cases h4 : a.has_bounding_box = false
  · rw [if_pos h4] at hp; exact absurd hp (by simp)
  rw [if_neg h4] at hp
  exact mkAnnotation_bbox _ _ _ (clipEdges_points_len _ _ _) _ hp

/-- Witness for C7: a cuboid spanning depths 4–8 in front of an 800×600
camera produces exactly one annotation, whose rectangle is 200×200 ≥ 3×3
and non-null. -/
theorem exporter_bbox_min_witness :
    ∃ x y w hh,
      ( ActorAnnotation.mk 1
        [((300, 400), (300, 200)), ((300, 200), (500, 200)), ((500, 200), (500, 400)),
         ((500, 400), (300, 400)), ((350, 350), (350, 250)), ((350, 250), (450, 250)),
         ((450, 250), (450, 350)), ((450, 350), (350, 350)), ((300, 400), (350, 350)),
         ((300, 200), (350, 250)), ((500, 400), (450, 350)), ((500, 200), (450, 250))]
        (some (300, 200, 200, 200))).bbox_from_clipped = some (x, y, w, hh) ∧
      3 ≤ w ∧ 3 ≤ hh := by
  apply exporter_bbox_min (build_projection_matrix 800 600 400)
    ⟨⟨1, 0, 0, 0⟩, ⟨0, 1, 0, 0⟩, ⟨0, 0, 1, 0⟩, ⟨0, 0, 0, 1⟩⟩
    ⟨1, 0, 0⟩ ⟨0, 0, 0⟩ ⟨0, 0, 0⟩ 800 600 0
    [⟨1, ⟨6, 0, 0⟩, true, fun k =>
      match k with
      | 0 => ⟨4, -1, -1⟩
      | 1 => ⟨4, -1, 1⟩
      | 2 => ⟨4, 1, -1⟩
      | 3 => ⟨4, 1, 1⟩
      | 4 => ⟨8, -1, -1⟩
      | 5 => ⟨8, -1, 1⟩
      | 6 => ⟨8, 1, -1⟩
      | 7 => ⟨8, 1, 1⟩⟩]
  have hev : export_3d_bboxes (build_projection_matrix 800 600 400)
      ⟨⟨1, 0, 0, 0⟩, ⟨0, 1, 0, 0⟩, ⟨0, 0, 1, 0⟩, ⟨0, 0, 0, 1⟩⟩
      ⟨1, 0, 0⟩ ⟨0, 0, 0⟩ ⟨0, 0, 0⟩ 800 600 0
      [⟨1, ⟨6, 0, 0⟩, true, fun k =>
        match k with
        | 0 => ⟨4, -1, -1⟩
        | 1 => ⟨4, -1, 1⟩
        | 2 => ⟨4, 1, -1⟩
        | 3 => ⟨4, 1, 1⟩
        | 4 => ⟨8, -1, -1⟩
        | 5 => ⟨8, -1, 1⟩
        | 6 => ⟨8, 1, -1⟩
        | 7 => ⟨8, 1, 1⟩⟩] =
      [⟨1, [((300, 400), (300, 200)), ((300, 200), (500, 200)), ((500, 200), (500, 400)),
            ((500, 400), (300, 400)), ((350, 350), (350, 250)), ((350, 250), (450, 250)),
            ((450, 250), (450, 350)), ((450, 350), (350, 350)), ((300, 400), (350, 350)),
            ((300, 200), (350, 250)), ((500, 400), (450, 350)), ((500, 200), (450, 250))],
        some (300, 200, 200, 200)⟩] := by
    norm_num [export_3d_bboxes, processActor, mkAnnotation, clipEdges, clipStep,
      projVerts, EDGES_INDICES, get_image_point, build_projection_matrix,
      liang_barsky_clip, lbCheck, dot3, dot4, distSq, dotLoc, subLoc,
      bboxXlo, bboxXhi, bboxYlo, bboxYhi, bboxW, bboxH, List.filterMap]
    simp
  rw [hev]
  exact List.mem_singleton.mpr rfl

/-! ### C9: exceptions in the tick loop do not retry the scene -/

/-- Counterexample to C9 as stated: a scene whose tick loop raises on the
very first attempt.  The exception is caught inside `run_simulation`, so
`main` records the scene as completed after a single attempt — the scene is
neither retried nor marked failed. -/
theorem scene_tick_exception_not_retried :
    sceneLoop [⟨false, true⟩, ⟨false, true⟩, ⟨false, true⟩] =
      ⟨true, 1, 1, 1⟩ := rfl

/-- C9 (amended).  An exception raised inside the per-tick loop is caught
by `run_simulation`'s own handler: it never propagates and the attempt's
teardown (destroying sensors and ego vehicle) runs regardless; the
enclosing scene attempt is then recorded completed with no retry.  The
3-attempt retry budget applies to exceptions raised during scene setup:
`main`'s per-attempt cleanup runs on every attempt, and three failing
setups leave the scene uncompleted after exactly 3 attempts. -/
theorem scene_retry_semantics :
    (∀ t : Bool, run_simulation_model t =
      { exceptionPropagates := false, teardownRan := true }) ∧
    (∀ (rest : List AttemptBehavior) (t : Bool),
      sceneLoop (⟨false, t⟩ :: rest) = ⟨true, 1, 1, 1⟩) ∧
    (∀ l : List AttemptBehavior, (sceneLoop l).cleanups = (sceneLoop l).attempts) ∧
    (∀ t : Bool, sceneLoop (List.replicate 3 ⟨true, t⟩) = ⟨false, 3, 3, 0⟩) := by
  refine ⟨fun t => by cases t <;> rfl, fun rest t => by cases t <;> rfl, ?_, ?_⟩
  · intro l
    induction l with
    | nil => rfl
    | cons b rest ih =>
      unfold sceneLoop
      split
      · simpa using ih
      · rfl
  · intro t
    cases t <;> rfl

/-! ### C10: every sensor callback pushes exactly one token -/

/-- C10.  Every invocation of `sensor_callback` pushes exactly one token
onto the rendezvous queue: on the failure path (processing or saving the
payload raised) the dummy token `(0, sensor_name)` is queued, and on the
success path the token carries the millisecond timestamp.  A failed
callback therefore never reduces the number of tokens the tick loop can
collect. -/
theorem sensor_callback_one_token :
    (∀ (data : SensorData) (name : String),
      (sensor_callback data true name).2 = [(0, name)]) ∧
    (∀ (data : SensorData) (name : String),
      (sensor_callback data false name).2 =
        [(intTrunc (data.timestamp * 1000), name)]) ∧
    (∀ (data : SensorData) (fails : Bool) (name : String),
      (sensor_callback data fails name).2.length = 1) := by
  refine ⟨fun _ _ => rfl, fun _ _ => rfl, fun data fails name => ?_⟩
  cases fails <;> rfl

/-! ### Lemmas about the consistency filter -/

/-- Membership in the fold computing `set.intersection(*ts_dict.values())`:
an element of the result is in the initial set and in every listed set. -/
theorem mem_interFold (l : List (String × List String)) (b : String) :
    ∀ init : List String,
      b ∈ l.foldl (fun acc p => acc.filter (fun x => p.2.contains x)) init →
      b ∈ init ∧ ∀ p ∈ l, p.2.contains b = true := by
  induction l with
  | nil =>
    intro init h
    exact ⟨h, by simp⟩
  | cons hd tl ih =>
    intro init h
    rw [List.foldl_cons] at h
    rcases ih _ h with ⟨hmem, hall⟩
    rcases List.mem_filter.mp hmem with ⟨hinit, hhd⟩
    refine ⟨hinit, ?_⟩
    intro p hp
    rcases List.mem_cons.mp hp with rfl | hp'
    · exact hhd
    · exact hall p hp'

/-- `findFolder` after the deletion sweep: the folder is found exactly when
it was found before, with its listing filtered when the folder is one of
the listed sensor folders. -/
theorem findFolder_cleanWith (names : List String) (keep : String → Bool)
    (scene : SceneDir) (s : String) :
    findFolder (cleanWith names keep scene) s =
      (findFolder scene s).map
        (fun F => if names.contains s then F.filter keep else F) := by
  induction scene with
  | nil => rfl
  | cons hd rest ih =>
    rcases hd with ⟨n, fs⟩
    by_cases hs : n = s
    · subst hs
      simp [cleanWith, findFolder]
    · simp [cleanWith, findFolder, hs, ih]

namespace MSC

/-- A listed sensor whose folder exists and yields a non-empty base set
contributes its base set to `ts_dict`. -/
theorem tsDict_mem (scene_path : String) (scene : SceneDir) (s : String)
    (F : List String) (hf : findFolder scene s = some F)
    (ht : tsOf scene_path s F ≠ []) :
    ∀ names : List String, s ∈ names →
      (s, tsOf scene_path s F) ∈ tsDict scene_path scene names := by
  intro names
  induction names with
  | nil => intro hn; cases hn
  | cons a rest ih =>
    intro hn
    rcases List.mem_cons.mp hn with rfl | hmem
    · unfold tsDict
      rw [hf]
      dsimp only
      rw [if_neg ht]
      exact List.mem_cons_self _ _
    · unfold tsDict
      cases hfa : findFolder scene a with
      | none => exact ih hmem
      | some listing =>
        dsimp only
        by_cases hts : tsOf scene_path a listing = []
        · rw [if_pos hts]
          exact ih hmem
        · rw [if_neg hts]
          exact List.mem_cons_of_mem _ (ih hmem)

/-- Every common timestamp is in every base set recorded in `ts_dict`. -/
theorem commonTs_mem_entry (scene_path : String) (scene : SceneDir)
    (names : List String) (b s : String) (T : List String)
    (hb : b ∈ commonTs scene_path scene names)
    (hT : (s, T) ∈ tsDict scene_path scene names) : b ∈ T := by
  unfold commonTs at hb
  cases hdict : tsDict scene_path scene names with
  | nil => rw [hdict] at hT; cases hT
  | cons hd tl =>
    rw [hdict] at hb hT
    rcases mem_interFold tl b hd.2 hb with ⟨hhd, hall⟩
    rcases List.mem_cons.mp hT with rfl | htl
    · exact hhd
    · exact (contains_iff_mem T b).mp (hall _ htl)

/-- A base timestamp of a folder is the base of one of the folder's
files. -/
theorem tsOf_exists_file (scene_path s : String) (F : List String) (b : String)
    (hb : b ∈ tsOf scene_path s F) : ∃ f ∈ F, pySplitextBase f = b := by
  unfold tsOf validFiles at hb
  by_cases hinst : strHasSub "instance" (joinPath scene_path s) = true
  · rw [if_pos hinst] at hb
    cases hb
  · rw [if_neg hinst] at hb
    rcases List.mem_map.mp hb with ⟨f, hf, hbase⟩
    exact ⟨f, (List.mem_filter.mp hf).1, hbase⟩

/-- Membership in the retained base set of a filtered folder listing. -/
theorem retained_bases_iff (F common : List String) (b : String) :
    b ∈ (F.filter (fun f => common.contains (pySplitextBase f))).map pySplitextBase ↔
      (b ∈ common ∧ ∃ f ∈ F, pySplitextBase f = b) := by
  constructor
  · intro h
    rcases List.mem_map.mp h with ⟨f, hf, hbase⟩
    rcases List.mem_filter.mp hf with ⟨hF, hc⟩
    refine ⟨?_, f, hF, hbase⟩
    rw [← hbase]
    exact (contains_iff_mem common (pySplitextBase f)).mp hc
  · rintro ⟨hcommon, f, hF, hbase⟩
    refine List.mem_map.mpr ⟨f, List.mem_filter.mpr ⟨hF, ?_⟩, hbase⟩
    rw [hbase]
    exact (contains_iff_mem common b).mpr hcommon

/-- The key alignment fact: when the pass reaches its deletion sweep, every
sensor folder that contributed its base set to the intersection retains
exactly the common timestamps. -/
theorem basesAfter_eq_common (scene_path : String) (scene : SceneDir)
    (names : List String) (s : String) (F : List String)
    (hn : s ∈ names) (hf : findFolder scene s = some F)
    (ht : tsOf scene_path s F ≠ [])
    (hc : commonTs scene_path scene names ≠ []) :
    ∀ b, b ∈ basesAfter scene_path scene names s ↔
      b ∈ commonTs scene_path scene names := by
  intro b
  have hdictmem := tsDict_mem scene_path scene s F hf ht names hn
  have hdict : tsDict scene_path scene names ≠ [] := by
    intro hnil
    rw [hnil] at hdictmem
    cases hdictmem
  unfold basesAfter clean_scene_data
  rw [if_neg hdict, if_neg hc]
  unfold cleanFolders
  rw [findFolder_cleanWith, hf]
  rw [Option.map_some']
  rw [if_pos ((contains_iff_mem names s).mpr hn)]
  rw [Option.getD_some]
  rw [retained_bases_iff]
  constructor
  · exact fun h => h.1
  · intro h
    refine ⟨h, ?_⟩
    exact tsOf_exists_file scene_path s F b
      (commonTs_mem_entry scene_path scene names b s _ h hdictmem)

end MSC

/-! ### C1: the consistency pass aligns the sensor folders -/

/-- C1 (amended).  When the pass reaches its deletion sweep (the base-set
dictionary is non-empty and the common timestamp set is non-empty), every
pair of sensor folders that contributed their base sets to the intersection
retains an identical set of base timestamps — each retains exactly the
common set.  (As stated the claim fails when the pass aborts — e.g. on an
empty intersection — or for folders excluded from the dictionary; see the
counterexample.) -/
theorem clean_scene_data_aligns (scene_path : String) (scene : SceneDir)
    (names : List String) (s1 s2 : String) (F1 F2 : List String)
    (h1 : s1 ∈ names) (h2 : s2 ∈ names)
    (hf1 : findFolder scene s1 = some F1) (hf2 : findFolder scene s2 = some F2)
    (ht1 : MSC.tsOf scene_path s1 F1 ≠ []) (ht2 : MSC.tsOf scene_path s2 F2 ≠ [])
    (hc : MSC.commonTs scene_path scene names ≠ []) :
    ∀ b, b ∈ MSC.basesAfter scene_path scene names s1 ↔
      b ∈ MSC.basesAfter scene_path scene names s2 := by
  intro b
  rw [MSC.basesAfter_eq_common scene_path scene names s1 F1 h1 hf1 ht1 hc b,
    MSC.basesAfter_eq_common scene_path scene names s2 F2 h2 hf2 ht2 hc b]

/-- Witness for C1: the spec's concrete scenario.  Sensor folders holding
base sets `{1,2,3}`, `{1,2}`, `{2,3}` are reduced to `{2}` in all three
folders, and the retained base sets of the first two folders agree (shown
for the base `"2"` via the theorem). -/
theorem clean_scene_data_aligns_witness :
    MSC.clean_scene_data "p"
      [("s1", ["1.png", "2.png", "3.png"]), ("s2", ["1.png", "2.png"]),
       ("s3", ["2.png", "3.png"])] ["s1", "s2", "s3"] =
      [("s1", ["2.png"]), ("s2", ["2.png"]), ("s3", ["2.png"])] ∧
    ("2" ∈ MSC.basesAfter "p"
      [("s1", ["1.png", "2.png", "3.png"]), ("s2", ["1.png", "2.png"]),
       ("s3", ["2.png", "3.png"])] ["s1", "s2", "s3"] "s1" ↔
     "2" ∈ MSC.basesAfter "p"
      [("s1", ["1.png", "2.png", "3.png"]), ("s2", ["1.png", "2.png"]),
       ("s3", ["2.png", "3.png"])] ["s1", "s2", "s3"] "s2") :=
  ⟨by decide,
   clean_scene_data_aligns "p"
    [("s1", ["1.png", "2.png", "3.png"]), ("s2", ["1.png", "2.png"]),
     ("s3", ["2.png", "3.png"])] ["s1", "s2", "s3"] "s1" "s2"
    ["1.png", "2.png", "3.png"] ["1.png", "2.png"]
    (by decide) (by decide) rfl rfl (by decide) (by decide) (by decide) "2"⟩

/-- Counterexample to C1 as stated: two sensor folders holding base sets
`{1}` and `{2}` have an empty intersection, so the pass aborts and deletes
nothing — after the pass the two listed folders do **not** retain identical
base-timestamp sets (`"1"` is retained by the first and not by the
second). -/
theorem clean_scene_data_unequal_sets :
    MSC.clean_scene_data "p" [("s1", ["1.png"]), ("s2", ["2.png"])] ["s1", "s2"] =
      [("s1", ["1.png"]), ("s2", ["2.png"])] ∧
    "1" ∈ MSC.basesAfter "p" [("s1", ["1.png"]), ("s2", ["2.png"])] ["s1", "s2"] "s1" ∧
    ¬ "1" ∈ MSC.basesAfter "p" [("s1", ["1.png"]), ("s2", ["2.png"])] ["s1", "s2"] "s2" := by
  decide

/-! ### C3: when the pass aborts, and when it does not -/

/-- C3 (amended).  The pass aborts with a warning — deleting nothing — in
exactly two situations: no listed folder yields any valid file
(`ts_dict` empty), or the intersection of the non-empty base sets is empty.
In both the scene's files are left entirely unchanged.  (As stated the
claim also requires abortion when merely *some* folder yields an empty base
set; the code instead excludes such a folder from the dictionary and
proceeds — see the counterexample.) -/
theorem clean_scene_data_abort_no_delete (scene_path : String) (scene : SceneDir)
    (names : List String)
    (h : MSC.cleanStatus scene_path scene names = MSC.CleanStatus.noValidFiles ∨
      MSC.cleanStatus scene_path scene names = MSC.CleanStatus.noCommon) :
    MSC.clean_scene_data scene_path scene names = scene := by
  unfold MSC.clean_scene_data
  by_cases hdict : MSC.tsDict scene_path scene names = []
  · rw [if_pos hdict]
  · rw [if_neg hdict]
    by_cases hcom : MSC.commonTs scene_path scene names = []
    · rw [if_pos hcom]
    · exfalso
      unfold MSC.cleanStatus at h
      rw [if_neg hdict, if_neg hcom] at h
      rcases h with h | h <;> cases h

/-- Witness for C3 (amended): a scene whose two folders share no timestamp
takes the empty-intersection exit and is left unchanged. -/
theorem clean_scene_data_abort_no_delete_witness :
    MSC.clean_scene_data "q" [("X", ["3.png"]), ("Y", ["4.png"])] ["X", "Y"] =
      [("X", ["3.png"]), ("Y", ["4.png"])] :=
  clean_scene_data_abort_no_delete "q" [("X", ["3.png"]), ("Y", ["4.png"])] ["X", "Y"]
    (Or.inr (by decide))

/-- Counterexample to C3 as stated: folder `C` exists and yields an empty
base-filename set, yet the pass does not abort — it deletes `1.png` from
folder `A` (the dictionary simply omits `C`, and the intersection over
`A` and `B` is `{2}`). -/
theorem clean_scene_data_empty_folder_still_deletes :
    MSC.tsOf "p" "C" [] = [] ∧
    MSC.clean_scene_data "p"
      [("A", ["1.png", "2.png"]), ("B", ["2.png"]), ("C", [])] ["A", "B", "C"] =
      [("A", ["2.png"]), ("B", ["2.png"]), ("C", [])] := by
  decide

/-! ### C4: the `sensor_processing.py` pass preserves `_3dbbox.json`
side-files of surviving frames -/

/-- A pattern matches its own occurrence at the head. -/
theorem leadMatch_self_append (pat r : List Char) : leadMatch pat (pat ++ r) = true := by
  induction pat with
  | nil => rfl
  | cons c cs ih => simp [leadMatch, ih]

/-- Python's `in`: a string ending in `pat` contains `pat`. -/
theorem hasSub_append_self (pat t : List Char) : hasSub pat (t ++ pat) = true := by
  induction t with
  | nil =>
    cases pat with
    | nil => rfl
    | cons c cs =>
      show hasSub (c :: cs) (c :: cs) = true
      unfold hasSub
      have := leadMatch_self_append (c :: cs) []
      rw [List.append_nil] at this
      simp [this]
  | cons c cs ih =>
    show hasSub pat (c :: (cs ++ pat)) = true
    unfold hasSub
    simp [ih]

/-- `split("_3dbbox.json")[0]` recovers the timestamp prefix of a
side-file name when that prefix is all digits (digits cannot start the
pattern, whose first character is an underscore). -/
theorem takeBefore_append_digits (ps : List Char) (t : List Char)
    (ht : ∀ c ∈ t, c.isDigit = true) :
    takeBefore ('_' :: ps) (t ++ '_' :: ps) = t := by
  induction t with
  | nil =>
    show takeBefore ('_' :: ps) ('_' :: ps) = []
    unfold takeBefore
    have := leadMatch_self_append ('_' :: ps) []
    rw [List.append_nil] at this
    rw [if_pos this]
  | cons c cs ih =>
    show takeBefore ('_' :: ps) (c :: (cs ++ '_' :: ps)) = c :: cs
    unfold takeBefore
    have hcne : ('_' == c) = false := by
      rw [beq_eq_false_iff_ne]
      intro he
      have := ht c (List.mem_cons_self _ _)
      rw [← he] at this
      exact absurd this (by decide)
    have hlm : leadMatch ('_' :: ps) (c :: (cs ++ '_' :: ps)) = false := by
      unfold leadMatch
      rw [hcne]
      rfl
    rw [if_neg (by rw [hlm]; exact Bool.false_ne_true)]
    rw [ih (fun d hd => ht d (List.mem_cons_of_mem _ hd))]

/-- String concatenation concatenates the underlying character lists. -/
theorem str_data_append (s u : String) : (s ++ u).data = s.data ++ u.data := by
  cases s; cases u; rfl

/-- The deletion sweep of the `SP` revision keeps a `_3dbbox.json`
side-file whose all-digit timestamp prefix is a common timestamp. -/
theorem keepFile_3dbbox (common : List String) (t : String)
    (ht : ∀ c ∈ t.data, c.isDigit = true) (hc : t ∈ common) :
    SP.keepFile common (t ++ "_3dbbox.json") = true := by
  unfold SP.keepFile
  have hsub : strHasSub "_3dbbox.json" (t ++ "_3dbbox.json") = true := by
    unfold strHasSub
    rw [str_data_append]
    exact hasSub_append_self _ _
  have htake : strTakeBefore "_3dbbox.json" (t ++ "_3dbbox.json") = t := by
    unfold strTakeBefore
    rw [str_data_append]
    rw [show "_3dbbox.json".data = '_' :: "3dbbox.json".data from rfl]
    rw [takeBefore_append_digits _ _ ht]
  rw [if_pos (by
    rw [hsub, htake, Bool.true_and]
    exact (contains_iff_mem common t).mpr hc)]

/-- C4.  The `sensor_processing.py` revision of the consistency pass
preserves derived 3-D annotation side-files whose primary frame survives:
for every all-digit timestamp `t` in the scene's common timestamp set, a
file named `<t>_3dbbox.json` present in a sensor folder before the pass is
still present in that folder after the pass. -/
theorem sp_clean_preserves_3dbbox (scene_path : String) (scene : SceneDir)
    (names : List String) (t : String) (ht : ∀ c ∈ t.data, c.isDigit = true)
    (hc : t ∈ SP.commonTs scene_path scene names)
    (s : String) (F : List String) (hf : findFolder scene s = some F)
    (hmem : (t ++ "_3dbbox.json") ∈ F) :
    ∃ F2, findFolder (SP.clean_scene_data scene_path scene names) s = some F2 ∧
      (t ++ "_3dbbox.json") ∈ F2 := by
  have hcom : SP.commonTs scene_path scene names ≠ [] := List.ne_nil_of_mem hc
  have hdict : SP.tsDict scene_path scene names ≠ [] := by
    intro hnil
    unfold SP.commonTs at hc
    rw [hnil] at hc
    cases hc
  unfold SP.clean_scene_data
  rw [if_neg hdict, if_neg hcom]
  unfold SP.cleanFolders
  rw [findFolder_cleanWith, hf, Option.map_some']
  refine ⟨_, rfl, ?_⟩
  by_cases hn : names.contains s
  · rw [if_pos hn]
    exact List.mem_filter.mpr ⟨hmem, keepFile_3dbbox _ _ ht hc⟩
  · rw [if_neg hn]
    exact hmem

/-- Witness for C4: the side-file `2_3dbbox.json` of the surviving frame
`2` is still present in the camera folder after the pass. -/
theorem sp_clean_preserves_3dbbox_witness :
    ∃ F2, findFolder (SP.clean_scene_data "p"
        [("camera_front", ["2.png", "2_3dbbox.json"]), ("lidar", ["2.json"])]
        ["camera_front", "lidar"]) "camera_front" = some F2 ∧
      ("2" ++ "_3dbbox.json") ∈ F2 :=
  sp_clean_preserves_3dbbox "p"
    [("camera_front", ["2.png", "2_3dbbox.json"]), ("lidar", ["2.json"])]
    ["camera_front", "lidar"] "2" (by decide) (by decide)
    "camera_front" ["2.png", "2_3dbbox.json"] rfl (by decide)

end MuseCarla
